import Mathlib

/-!
Shallow embedding of the order-fulfillment and payment-settlement core of the
Medicare point-of-sale backend (routes/invoices.ts, routes/sales.ts,
utils/razorpay.ts, models/sale.ts, models/product.ts), together with theorems
settling the specification claims about it.

Modelling conventions:
* MongoDB documents become Lean structures; money amounts are ℚ (JS numbers),
  stock counters are ℤ.
* The database is a pair of lists (products, sales); `save` of a mongoose
  document is modelled by replacing the matching entry; the `unique: true`
  constraint on `invoiceId` (models/sale.ts line 30) makes inserting a
  duplicate invoice id fail, which the route's catch block turns into a
  generic 500 "Server error".
* The Razorpay client (`razorpay.orders.create`) is an external service: it is
  passed as a function `gw : ℚ → Option String` taking the amount sent and
  returning the created external order id, `none` meaning the call throws.
* `crypto.createHmac('sha256', secret).update(m).digest('hex')` is the
  external Node crypto primitive; it is passed as an abstract function
  `hmac : String → String → String` (secret, message ↦ hex digest).
-/

set_option autoImplicit false

namespace Medicare

/-- `paymentStatus` enum of models/sale.ts. -/
inductive PaymentStatus
  | pending
  | paid
  | failed
deriving DecidableEq, Repr

/-- `status` enum of models/sale.ts. -/
inductive OrderStatus
  | pending
  | completed
  | cancelled
deriving DecidableEq, Repr

/-- `paymentMethod` enum of models/sale.ts. -/
inductive PaymentMethod
  | cash
  | upi
deriving DecidableEq, Repr

/-- A product document (models/product.ts): id, name, price, stock. -/
structure Product where
  id : String
  name : String
  price : ℚ
  stock : ℤ
deriving DecidableEq, Repr

/-- A line item of a sale (models/sale.ts `items`). -/
structure SaleItem where
  productId : String
  name : String
  quantity : ℤ
  price : ℚ
  total : ℚ
deriving DecidableEq, Repr

/-- A sale/invoice document (models/sale.ts). -/
structure Sale where
  invoiceId : String
  customerName : String
  items : List SaleItem
  totalAmount : ℚ
  status : OrderStatus
  paymentStatus : PaymentStatus
  paymentMethod : PaymentMethod
  razorpayOrderId : Option String := none
  razorpayPaymentId : Option String := none
  razorpaySignature : Option String := none
deriving DecidableEq, Repr

/-- The persistent store: the `products` and `sales` collections. -/
structure DB where
  products : List Product
  sales : List Sale
deriving DecidableEq, Repr

/-- `AppError(message, statusCode)` from utils/error.ts (detail payload omitted). -/
structure AppErr where
  message : String
  statusCode : ℕ
deriving DecidableEq, Repr

/-- `Product.findById` — first product with the given id. -/
def findProduct (ps : List Product) (pid : String) : Option Product :=
  ps.find? (fun p => p.id == pid)

/-- `product.save()` after mutating `stock`: replace the stored document. -/
def setStock (ps : List Product) (pid : String) (newStock : ℤ) : List Product :=
  ps.map (fun p => if p.id = pid then { p with stock := newStock } else p)

/-- Outcome of a failed iteration of the stock loop. -/
inductive StockErr
  | notFound (name : String)
  | insufficient (name : String)
deriving DecidableEq, Repr

/-- The sequential stock check-and-decrement loop of routes/invoices.ts
lines 164–179 (the same loop appears in routes/sales.ts lines 112–122):
for each item, `findById`; on missing product or insufficient stock the
route returns an error at once, leaving the products already saved in their
decremented state; otherwise `product.stock -= quantity; product.save()`.
Returns the product collection as left by the loop, plus the error if any. -/
def stockLoop (ps : List Product) : List SaleItem → List Product × Option StockErr
  | [] => (ps, none)
  | item :: rest =>
    match findProduct ps item.productId with
    | none => (ps, some (StockErr.notFound item.name))
    | some p =>
      if p.stock < item.quantity then
        (ps, some (StockErr.insufficient item.name))
      else
        stockLoop (setStock ps item.productId (p.stock - item.quantity)) rest

/-- Error response the two routes produce for a failed stock-loop iteration
(`Product ... not found` 404 / `Insufficient stock for ...` 400). -/
def stockErrToApp : StockErr → AppErr
  | StockErr.notFound n => ⟨"Product " ++ n ++ " not found", 404⟩
  | StockErr.insufficient n => ⟨"Insufficient stock for " ++ n, 400⟩

/-- Is a sale with this invoice id already stored? (the storage-level
`unique: true` constraint on `invoiceId`, models/sale.ts line 30). -/
def hasInvoiceId (sales : List Sale) (iid : String) : Bool :=
  sales.any (fun s => s.invoiceId == iid)

/-- `new Sale({...}).save()` / `Sale.create(...)`: inserting a document whose
`invoiceId` collides with a stored one violates the unique index and throws
(`none`); otherwise the document is appended. -/
def saveSale (sales : List Sale) (s : Sale) : Option (List Sale) :=
  if hasInvoiceId sales s.invoiceId then none else some (sales ++ [s])

/-- `Math.round` of JavaScript on an exact rational: half-up rounding. -/
def jsRound (q : ℚ) : ℤ := (q + 1/2).floor

/-- `orderAmountPaise = Math.max(Math.round(totalAmount * 100), 100)`
(routes/invoices.ts line 211). -/
def invoicesAmountPaise (totalAmount : ℚ) : ℤ :=
  max (jsRound (totalAmount * 100)) 100

/-- Amount field of `razorpay.orders.create` in routes/sales.ts line 129:
`totalAmount * 100`, with no rounding and no clamping. -/
def salesAmountPaise (totalAmount : ℚ) : ℚ :=
  totalAmount * 100

/-- `totalAmount = items.reduce((sum, item) => sum + item.total, 0)`
(routes/sales.ts line 125). -/
def sumTotals (items : List SaleItem) : ℚ :=
  (items.map (fun i => i.total)).sum

/-- Checkout request body of POST /api/invoices (customer reference omitted:
the customer lookup does not interact with any claim). -/
structure CheckoutReq where
  customerName : String
  items : List SaleItem
  totalAmount : ℚ
  paymentMethod : PaymentMethod
deriving DecidableEq, Repr

/-- Success response of POST /api/invoices: the cash path returns the created
invoice; the UPI path additionally returns the paise amount sent to the
gateway and the gateway order id. -/
inductive CheckoutResp
  | cashOk (sale : Sale)
  | upiOk (sale : Sale) (amount : ℤ) (razorpayOrderId : String)
deriving DecidableEq, Repr

/-- POST /api/invoices (routes/invoices.ts lines 93–287).
`invoiceId` is the value produced by `generateInvoiceId()`; `gw` is the
Razorpay client (`none` = the create call throws, handled by the catch
block as a generic 500 "Server error"). The route's express-validator chain
(lines 96–133: a non-empty items array, positive integer quantities,
non-negative prices and totalAmount) is not modelled; every concrete input
this development instantiates the route at satisfies it, so each concrete
run shown here is a run the real route reaches.
1. run the stock check-and-decrement loop (partial decrements persist);
2. cash: save the invoice as completed/paid — a unique-index violation on
   save is caught as 500 "Server error";
3. upi: send `max(round(totalAmount*100), 100)` to the gateway; a gateway
   throw is caught as 500 "Server error" with no stock released and no
   order persisted; otherwise save the invoice as pending/pending. -/
def createInvoice (db : DB) (req : CheckoutReq) (invoiceId : String)
    (gw : ℚ → Option String) : DB × Except AppErr CheckoutResp :=
  match stockLoop db.products req.items with
  | (ps, some e) => ({ db with products := ps }, Except.error (stockErrToApp e))
  | (ps, none) =>
    let db1 : DB := { db with products := ps }
    match req.paymentMethod with
    | PaymentMethod.cash =>
      let sale : Sale :=
        { invoiceId := invoiceId, customerName := req.customerName,
          items := req.items, totalAmount := req.totalAmount,
          status := OrderStatus.completed, paymentStatus := PaymentStatus.paid,
          paymentMethod := PaymentMethod.cash }
      match saveSale db1.sales sale with
      | none => (db1, Except.error ⟨"Server error", 500⟩)
      | some ss => ({ db1 with sales := ss }, Except.ok (CheckoutResp.cashOk sale))
    | PaymentMethod.upi =>
      let amount := invoicesAmountPaise req.totalAmount
      match gw (amount : ℚ) with
      | none => (db1, Except.error ⟨"Server error", 500⟩)
      | some extId =>
        let sale : Sale :=
          { invoiceId := invoiceId, customerName := req.customerName,
            items := req.items, totalAmount := req.totalAmount,
            status := OrderStatus.pending, paymentStatus := PaymentStatus.pending,
            paymentMethod := PaymentMethod.upi, razorpayOrderId := some extId }
        match saveSale db1.sales sale with
        | none => (db1, Except.error ⟨"Server error", 500⟩)
        | some ss =>
          ({ db1 with sales := ss }, Except.ok (CheckoutResp.upiOk sale amount extId))

/-- POST /api/sales (routes/sales.ts lines 106–161).
Runs the same stock loop, computes `totalAmount` as the sum of the item
totals, sends `totalAmount * 100` to the gateway (unrounded, unclamped),
and persists the sale as pending/pending on gateway success; any throw is
caught as a generic 500. -/
def createSale (db : DB) (items : List SaleItem) (customerName : String)
    (invoiceId : String) (gw : ℚ → Option String) : DB × Except AppErr Sale :=
  match stockLoop db.products items with
  | (ps, some e) => ({ db with products := ps }, Except.error (stockErrToApp e))
  | (ps, none) =>
    let db1 : DB := { db with products := ps }
    let totalAmount := sumTotals items
    match gw (salesAmountPaise totalAmount) with
    | none => (db1, Except.error ⟨"Server error", 500⟩)
    | some extId =>
      let sale : Sale :=
        { invoiceId := invoiceId, customerName := customerName, items := items,
          totalAmount := totalAmount, status := OrderStatus.pending,
          paymentStatus := PaymentStatus.pending,
          paymentMethod := PaymentMethod.upi, razorpayOrderId := some extId }
      match saveSale db1.sales sale with
      | none => (db1, Except.error ⟨"Server error", 500⟩)
      | some ss => ({ db1 with sales := ss }, Except.ok sale)

/-- `verifyPaymentSignature` (utils/razorpay.ts lines 11–21): the hex HMAC
digest of `orderId + "|" + paymentId` under the shared secret, compared
with `==` against the provided signature. -/
def verifyPaymentSignature (hmac : String → String → String)
    (secret orderId paymentId signature : String) : Bool :=
  hmac secret (orderId ++ "|" ++ paymentId) == signature

/-- Request body of POST /api/invoices/verify-payment. -/
structure ConfirmReq where
  razorpay_order_id : String
  razorpay_payment_id : String
  razorpay_signature : String
  invoiceId : String
deriving DecidableEq, Repr

/-- `Sale.findOne({ invoiceId })` — first sale with the given invoice id. -/
def findSale (sales : List Sale) (iid : String) : Option Sale :=
  sales.find? (fun s => s.invoiceId == iid)

/-- `invoice.save()` after mutating fields: replace the stored document with
the matching invoice id. -/
def replaceSale (sales : List Sale) (s : Sale) : List Sale :=
  sales.map (fun t => if t.invoiceId = s.invoiceId then s else t)

/-- POST /api/invoices/verify-payment (routes/invoices.ts lines 289–360).
Looks the invoice up by `invoiceId` (404 if absent), verifies the signature
over the request's `(razorpay_order_id, razorpay_payment_id)` — with no
check against the invoice's stored `razorpayOrderId` and no check that the
invoice is still pending — then either marks it paid/completed recording
the payment id and signature, or marks `paymentStatus` failed and returns a
400 error. -/
def confirmPayment (hmac : String → String → String) (secret : String)
    (db : DB) (req : ConfirmReq) : DB × Except AppErr Sale :=
  match findSale db.sales req.invoiceId with
  | none => (db, Except.error ⟨"Invoice not found", 404⟩)
  | some inv =>
    if verifyPaymentSignature hmac secret req.razorpay_order_id
        req.razorpay_payment_id req.razorpay_signature then
      let inv' : Sale :=
        { inv with
          paymentStatus := PaymentStatus.paid,
          razorpayPaymentId := some req.razorpay_payment_id,
          razorpaySignature := some req.razorpay_signature,
          status := OrderStatus.completed }
      ({ db with sales := replaceSale db.sales inv' }, Except.ok inv')
    else
      let inv' : Sale := { inv with paymentStatus := PaymentStatus.failed }
      ({ db with sales := replaceSale db.sales inv' },
        Except.error ⟨"Invalid payment signature", 400⟩)

/-- Folding a list of confirmation requests through the store: the database
after a sequence of verify-payment calls. -/
def confirmAll (hmac : String → String → String) (secret : String)
    (db : DB) (reqs : List ConfirmReq) : DB :=
  reqs.foldl (fun d r => (confirmPayment hmac secret d r).1) db

/-!
Interleaving model for the per-product decrement of one checkout iteration
(routes/invoices.ts lines 164–179 / routes/sales.ts lines 112–122 for a
single item). A checkout performs two separate awaited database operations:
`findById` (a read of the stock counter) and `save` (a write of the locally
decremented value); the stock check runs on the value read. Two concurrent
checkouts of the same product interleave at these await points.
-/

/-- One checkout's progress through its single-item stock loop iteration:
`pc = 0` before the `findById` read, `pc = 1` between read and check/save
(`r` holds the stock value read), `pc = 2` done, with outcome `ok`
(`some true` = decremented and proceeding, `some false` = the route returned
an InsufficientStock error). -/
structure CheckoutProc where
  q : ℤ
  pc : ℕ
  r : ℤ
  ok : Option Bool
deriving DecidableEq, Repr

/-- One atomic step of a checkout against the shared stock counter: the
`findById` read, or the check on the value read followed by the `save`
write of `r - q`. -/
def stepProc (stock : ℤ) (p : CheckoutProc) : ℤ × CheckoutProc :=
  match p.pc with
  | 0 => (stock, { p with pc := 1, r := stock })
  | 1 =>
    if p.r < p.q then (stock, { p with pc := 2, ok := some false })
    else (p.r - p.q, { p with pc := 2, ok := some true })
  | _ => (stock, p)

/-- Two concurrent checkouts of the same product sharing its stock counter. -/
structure TwoCheckouts where
  stock : ℤ
  p1 : CheckoutProc
  p2 : CheckoutProc
deriving DecidableEq, Repr

/-- Run one step of the first (`true`) or second (`false`) checkout. -/
def stepSys (s : TwoCheckouts) (first : Bool) : TwoCheckouts :=
  if first then
    let (st, p) := stepProc s.stock s.p1
    { s with stock := st, p1 := p }
  else
    let (st, p) := stepProc s.stock s.p2
    { s with stock := st, p2 := p }

/-- Execute the two checkouts under a given interleaving schedule. -/
def runSched (s : TwoCheckouts) : List Bool → TwoCheckouts
  | [] => s
  | b :: bs => runSched (stepSys s b) bs

/-- Initial state: shared stock counter, both checkouts about to read. -/
def initTwo (stock q1 q2 : ℤ) : TwoCheckouts :=
  { stock := stock,
    p1 := { q := q1, pc := 0, r := 0, ok := none },
    p2 := { q := q2, pc := 0, r := 0, ok := none } }

/-- Sale carried by a checkout success response. -/
def respSale : CheckoutResp → Sale
  | CheckoutResp.cashOk s => s
  | CheckoutResp.upiOk s _ _ => s

/-! Concrete fixtures used to evaluate the routes at specific inputs. -/

/-- A product with 5 units in stock. -/
def prodA : Product := ⟨"p1", "A", 10, 5⟩

/-- A product that is out of stock. -/
def prodB : Product := ⟨"p2", "B", 20, 0⟩

/-- A cart line for one unit of `prodA`. -/
def itemA1 : SaleItem := ⟨"p1", "A", 1, 10, 10⟩

/-- A cart line for one unit of `prodB`. -/
def itemB1 : SaleItem := ⟨"p2", "B", 1, 20, 20⟩

/-- A cart line for two units of `prodA`. -/
def itemA2 : SaleItem := ⟨"p1", "A", 2, 10, 20⟩

/-- A stand-in for the hex HMAC-SHA256 primitive: every digest is "GOOD", so
"GOOD" is the valid signature for any payload and anything else is invalid. -/
def hmacG : String → String → String := fun _ _ => "GOOD"

/-- A gateway whose create call always throws. -/
def gwFail : ℚ → Option String := fun _ => none

/-- A gateway that always answers with external order id "EXT". -/
def gwOk : ℚ → Option String := fun _ => some "EXT"

/-- A gateway that only accepts a 50-paise create call. -/
def gwOnly50 : ℚ → Option String := fun a => if a = 50 then some "EXT" else none

/-- A gateway that only accepts a 100-paise create call. -/
def gwOnly100 : ℚ → Option String := fun a => if a = 100 then some "EXT" else none

/-- A stored order already settled: paymentStatus paid, status completed. -/
def paidSale : Sale :=
  { invoiceId := "I1", customerName := "c", items := [], totalAmount := 10,
    status := OrderStatus.completed, paymentStatus := PaymentStatus.paid,
    paymentMethod := PaymentMethod.upi, razorpayOrderId := some "ORD",
    razorpayPaymentId := some "PAY", razorpaySignature := some "GOOD" }

/-- A stored electronic order awaiting confirmation, with gateway order id
"ORD_A" recorded at checkout. -/
def pendSale : Sale :=
  { invoiceId := "I2", customerName := "c", items := [], totalAmount := 10,
    status := OrderStatus.pending, paymentStatus := PaymentStatus.pending,
    paymentMethod := PaymentMethod.upi, razorpayOrderId := some "ORD_A" }

/-- A confirmation for `pendSale` whose signature is not the digest. -/
def reqBad : ConfirmReq := ⟨"ORD_A", "PAY2", "BAD", "I2"⟩

/-- A confirmation for `pendSale` carrying gateway order id "ORD_B" — different
from the stored "ORD_A" — with a signature that verifies under `hmacG`. -/
def reqOtherOrder : ConfirmReq := ⟨"ORD_B", "PAY2", "GOOD", "I2"⟩

/-- A confirmation for the settled `paidSale` whose signature is invalid. -/
def reqBadPaid : ConfirmReq := ⟨"ORD", "PAY2", "BAD", "I1"⟩

/-- A cart line whose lineTotal is half a currency unit. -/
def itemHalf : SaleItem := ⟨"p1", "A", 1, 1/2, 1/2⟩

/-- `prodA` after one unit has been reserved. -/
def prodA4 : Product := ⟨"p1", "A", 10, 4⟩

/-- The sale POST /api/sales persists for cart `[itemA1]` under id "S1". -/
def saleS1 : Sale :=
  { invoiceId := "S1", customerName := "c", items := [itemA1],
    totalAmount := sumTotals [itemA1], status := OrderStatus.pending,
    paymentStatus := PaymentStatus.pending, paymentMethod := PaymentMethod.upi,
    razorpayOrderId := some "EXT" }

/-- The sale POST /api/sales persists for cart `[itemHalf]` under id "S1". -/
def saleHalf : Sale :=
  { invoiceId := "S1", customerName := "c", items := [itemHalf],
    totalAmount := sumTotals [itemHalf], status := OrderStatus.pending,
    paymentStatus := PaymentStatus.pending, paymentMethod := PaymentMethod.upi,
    razorpayOrderId := some "EXT" }

/-- The invoice a cash POST /api/invoices persists for body totalAmount 5 and
cart `[itemA1]` under id "C1". -/
def saleC1 : Sale :=
  { invoiceId := "C1", customerName := "c", items := [itemA1], totalAmount := 5,
    status := OrderStatus.completed, paymentStatus := PaymentStatus.paid,
    paymentMethod := PaymentMethod.cash }

/-- The invoice a UPI POST /api/invoices persists for body totalAmount 1/2 and
cart `[itemHalf]` under id "U1". -/
def saleU1 : Sale :=
  { invoiceId := "U1", customerName := "c", items := [itemHalf],
    totalAmount := 1/2, status := OrderStatus.pending,
    paymentStatus := PaymentStatus.pending, paymentMethod := PaymentMethod.upi,
    razorpayOrderId := some "EXT" }

/-- A stored order occupying invoice id "X". -/
def saleX : Sale :=
  { invoiceId := "X", customerName := "c", items := [], totalAmount := 5,
    status := OrderStatus.completed, paymentStatus := PaymentStatus.paid,
    paymentMethod := PaymentMethod.cash }

/-! Supporting lemmas about the store operations. -/

/-- `jsRound` agrees with the mathematical half-up rounding `⌊q + 1/2⌋`. -/
theorem jsRound_eq_floor (q : ℚ) : jsRound q = ⌊q + 1/2⌋ := by
  unfold jsRound
  rw [Rat.floor_def', Rat.floor_def]

/-- A sale found by invoice id carries that invoice id. -/
theorem findSale_invoiceId {sales : List Sale} {iid : String} {s : Sale}
    (h : findSale sales iid = some s) : s.invoiceId = iid := by
  have hp := List.find?_some h
  exact eq_of_beq hp

/-- Unfolding `replaceSale` one document at a time. -/
theorem replaceSale_cons (t : Sale) (ts : List Sale) (s' : Sale) :
    replaceSale (t :: ts) s' =
      (if t.invoiceId = s'.invoiceId then s' else t) :: replaceSale ts s' := rfl

/-- A lookup skips a document whose invoice id differs. -/
theorem findSale_cons_of_ne {t : Sale} (ts : List Sale) {iid : String}
    (h : t.invoiceId ≠ iid) : findSale (t :: ts) iid = findSale ts iid := by
  unfold findSale
  exact List.find?_cons_of_neg _ (by simp [h])

/-- A lookup returns the head document when its invoice id matches. -/
theorem findSale_cons_of_eq {t : Sale} (ts : List Sale) {iid : String}
    (h : t.invoiceId = iid) : findSale (t :: ts) iid = some t := by
  unfold findSale
  exact List.find?_cons_of_pos _ (by simp [h])

/-- Replacing a sale whose invoice id differs from the one queried does not
change the lookup result. -/
theorem findSale_replaceSale_ne (sales : List Sale) (s' : Sale) (iid : String)
    (hne : s'.invoiceId ≠ iid) :
    findSale (replaceSale sales s') iid = findSale sales iid := by
  induction sales with
  | nil => rfl
  | cons t ts ih =>
    rw [replaceSale_cons]
    by_cases h1 : t.invoiceId = s'.invoiceId
    · rw [if_pos h1, findSale_cons_of_ne _ hne,
        findSale_cons_of_ne _ (fun h => hne (h1.symm.trans h)), ih]
    · rw [if_neg h1]
      by_cases h2 : t.invoiceId = iid
      · rw [findSale_cons_of_eq _ h2, findSale_cons_of_eq _ h2]
      · rw [findSale_cons_of_ne _ h2, findSale_cons_of_ne _ h2, ih]

/-- Replacing a sale whose invoice id equals the one queried makes the lookup
return the replacement, provided the id was present. -/
theorem findSale_replaceSale_eq (sales : List Sale) (s' : Sale) (iid : String)
    (heq : s'.invoiceId = iid) (hsome : (findSale sales iid).isSome = true) :
    findSale (replaceSale sales s') iid = some s' := by
  induction sales with
  | nil => simp [findSale] at hsome
  | cons t ts ih =>
    rw [replaceSale_cons]
    by_cases h1 : t.invoiceId = iid
    · rw [if_pos (h1.trans heq.symm), findSale_cons_of_eq _ heq]
    · rw [if_neg (fun h => h1 (h.trans heq)), findSale_cons_of_ne _ h1]
      exact ih (by rwa [findSale_cons_of_ne _ h1] at hsome)

/-- One verify-payment call with an invalid signature never makes the order
looked up under `iid` paid: the only mutation it can apply sets
`paymentStatus` to failed. -/
theorem confirm_invalid_keeps_unpaid (hmac : String → String → String)
    (secret : String) (d : DB) (r : ConfirmReq) (iid : String)
    (hinv : verifyPaymentSignature hmac secret r.razorpay_order_id
      r.razorpay_payment_id r.razorpay_signature = false)
    (h : ∀ s, findSale d.sales iid = some s → s.paymentStatus ≠ PaymentStatus.paid) :
    ∀ s, findSale (confirmPayment hmac secret d r).1.sales iid = some s →
      s.paymentStatus ≠ PaymentStatus.paid := by
  intro s hs
  unfold confirmPayment at hs
  cases hfind : findSale d.sales r.invoiceId with
  | none =>
    rw [hfind] at hs
    exact h s hs
  | some inv =>
    rw [hfind, hinv] at hs
    simp only [Bool.false_eq_true, if_false] at hs
    by_cases hiid : iid = inv.invoiceId
    · have hrid : inv.invoiceId = r.invoiceId := findSale_invoiceId hfind
      have hsome : (findSale d.sales iid).isSome = true := by
        rw [hiid, hrid, hfind]; rfl
      rw [findSale_replaceSale_eq d.sales _ iid (hiid ▸ rfl) hsome] at hs
      cases hs
      intro hpaid
      exact PaymentStatus.noConfusion hpaid
    · rw [findSale_replaceSale_ne d.sales
        { inv with paymentStatus := PaymentStatus.failed } iid
        (fun he => hiid he.symm)] at hs
      exact h s hs

/-- A sequence of verify-payment calls, every one carrying an invalid
signature, never makes the order looked up under `iid` paid. -/
theorem confirmAll_invalid_keeps_unpaid (hmac : String → String → String)
    (secret : String) (reqs : List ConfirmReq) :
    ∀ (d : DB) (iid : String),
    (∀ r ∈ reqs, verifyPaymentSignature hmac secret r.razorpay_order_id
      r.razorpay_payment_id r.razorpay_signature = false) →
    (∀ s, findSale d.sales iid = some s → s.paymentStatus ≠ PaymentStatus.paid) →
    ∀ s, findSale (confirmAll hmac secret d reqs).sales iid = some s →
      s.paymentStatus ≠ PaymentStatus.paid := by
  induction reqs with
  | nil => intro d iid _ h; exact h
  | cons r rs ih =>
    intro d iid hall h
    simp only [confirmAll, List.foldl_cons]
    exact ih _ iid (fun x hx => hall x (List.mem_cons_of_mem _ hx))
      (confirm_invalid_keeps_unpaid hmac secret d r iid
        (hall r (List.mem_cons_self _ _)) h)

/-! Claim theorems. -/

/-- C1: the claim says stock reservation is atomic across the item set — a
checkout that fails partway must undo the decrements already applied and
leave all stock unchanged. The code violates this: with product A at stock 5
and product B at stock 0, a checkout for one unit of each fails on B with an
InsufficientStock error, yet leaves A decremented to 4 — the failed checkout
does not leave stock unchanged. -/
theorem C1_failed_checkout_keeps_partial_decrement :
    createInvoice ⟨[prodA, prodB], []⟩
        ⟨"c", [itemA1, itemB1], 30, PaymentMethod.cash⟩ "I1" gwFail =
      (⟨[⟨"p1", "A", 10, 4⟩, prodB], []⟩,
        Except.error ⟨"Insufficient stock for B", 400⟩) ∧
    (createInvoice ⟨[prodA, prodB], []⟩
        ⟨"c", [itemA1, itemB1], 30, PaymentMethod.cash⟩ "I1" gwFail).1.products ≠
      [prodA, prodB] := by
  refine ⟨rfl, ?_⟩
  decide

/-- C2: the claim says that when the payment-gateway intent creation fails
after stock was reserved, the reserved stock is fully restored before the
error is surfaced. The code violates the restoration half: an electronic
checkout of 2 units of product A (stock 5) whose gateway call throws is
answered with a generic 500 error, no order record is persisted, but product
A is left at stock 3 — the reservation is not released. -/
theorem C2_gateway_failure_keeps_stock :
    createInvoice ⟨[prodA], []⟩ ⟨"c", [itemA2], 20, PaymentMethod.upi⟩ "I1" gwFail =
      (⟨[⟨"p1", "A", 10, 3⟩], []⟩, Except.error ⟨"Server error", 500⟩) ∧
    (createInvoice ⟨[prodA], []⟩
        ⟨"c", [itemA2], 20, PaymentMethod.upi⟩ "I1" gwFail).1.products ≠ [prodA] := by
  refine ⟨rfl, ?_⟩
  decide

/-- C3: the claim says a confirmPayment call on an order whose paymentStatus
is already terminal (here: Paid) performs no mutation and returns the order
unchanged, so that once Paid no payment- or status-related field changes
again. The code has no terminal-state check: an invalid-signature
confirmation against the already-paid order overwrites its paymentStatus
with failed and persists that mutation. -/
theorem C3_terminal_order_mutated :
    confirmPayment hmacG "sec" ⟨[], [paidSale]⟩ reqBadPaid =
      (⟨[], [{ paidSale with paymentStatus := PaymentStatus.failed }]⟩,
        Except.error ⟨"Invalid payment signature", 400⟩) ∧
    ({ paidSale with paymentStatus := PaymentStatus.failed } : Sale).paymentStatus ≠
      paidSale.paymentStatus := by
  refine ⟨rfl, ?_⟩
  decide

/-- C4: the claim says two concurrent checkouts, each requesting 3 units of a
product with stock 5, end with exactly one success, one InsufficientStock
failure, and final stock 2. The code's per-product decrement is a
read-then-write pair around the stock check, so under the interleaving
read₁, read₂, write₁, write₂ both checkouts read stock 5, both pass the
check, and both succeed (a lost update): final stock is 2 but there is no
failure, contradicting exactly-one-success. -/
theorem C4_concurrent_checkouts_both_succeed :
    runSched (initTwo 5 3 3) [true, false, true, false] =
      { stock := 2,
        p1 := { q := 3, pc := 2, r := 5, ok := some true },
        p2 := { q := 3, pc := 2, r := 5, ok := some true } } ∧
    (runSched (initTwo 5 3 3) [true, false, true, false]).p1.ok = some true ∧
    (runSched (initTwo 5 3 3) [true, false, true, false]).p2.ok = some true := by
  decide

/-- C7: signature verification returns true exactly when the provided
signature equals the hex HMAC-SHA256 digest, keyed with the shared secret,
of `externalOrderId ++ "|" ++ externalPaymentId`; as a Lean function of the
digest primitive, the secret and the inputs it is pure and deterministic. -/
theorem C7_signature_verification_iff (hmac : String → String → String)
    (secret orderId paymentId signature : String) :
    verifyPaymentSignature hmac secret orderId paymentId signature = true ↔
      signature = hmac secret (orderId ++ "|" ++ paymentId) := by
  unfold verifyPaymentSignature
  rw [beq_iff_eq]
  exact eq_comm

/-- C5: a confirmPayment call on a stored pending order whose signature fails
verification returns an error, transitions the order's paymentStatus to
Failed while leaving its orderStatus unchanged, and no sequence of further
invalid-signature confirmations ever makes that order's paymentStatus
Paid. -/
theorem C5_invalid_signature_marks_failed (hmac : String → String → String)
    (secret : String) (db : DB) (req : ConfirmReq) (inv : Sale)
    (hfind : findSale db.sales req.invoiceId = some inv)
    (_hpend : inv.paymentStatus = PaymentStatus.pending)
    (hinv : verifyPaymentSignature hmac secret req.razorpay_order_id
      req.razorpay_payment_id req.razorpay_signature = false) :
    (confirmPayment hmac secret db req).2 =
      Except.error ⟨"Invalid payment signature", 400⟩ ∧
    findSale (confirmPayment hmac secret db req).1.sales req.invoiceId =
      some { inv with paymentStatus := PaymentStatus.failed } ∧
    ({ inv with paymentStatus := PaymentStatus.failed } : Sale).status = inv.status ∧
    ∀ reqs : List ConfirmReq,
      (∀ r ∈ reqs, verifyPaymentSignature hmac secret r.razorpay_order_id
        r.razorpay_payment_id r.razorpay_signature = false) →
      ∀ s, findSale
          (confirmAll hmac secret (confirmPayment hmac secret db req).1 reqs).sales
          req.invoiceId = some s →
        s.paymentStatus ≠ PaymentStatus.paid := by
  have hid : inv.invoiceId = req.invoiceId := findSale_invoiceId hfind
  have hsome : (findSale db.sales req.invoiceId).isSome = true := by
    rw [hfind]; rfl
  have h2 : findSale (confirmPayment hmac secret db req).1.sales req.invoiceId =
      some { inv with paymentStatus := PaymentStatus.failed } := by
    simp only [confirmPayment, hfind, hinv, Bool.false_eq_true, if_false]
    exact findSale_replaceSale_eq db.sales _ req.invoiceId hid hsome
  refine ⟨?_, h2, rfl, ?_⟩
  · simp only [confirmPayment, hfind, hinv, Bool.false_eq_true, if_false]
  · intro reqs hall s hs
    refine confirmAll_invalid_keeps_unpaid hmac secret reqs _ req.invoiceId hall
      ?_ s hs
    intro s' hs'
    rw [h2] at hs'
    cases hs'
    intro hpaid
    exact PaymentStatus.noConfusion hpaid

/-- C5 witness: with the digest fixed to "GOOD", a confirmation of the stored
pending order "I2" carrying signature "BAD" errors, stores the order with
paymentStatus failed and unchanged orderStatus, and that stored state is not
Paid. -/
theorem C5_invalid_signature_marks_failed_witness :
    (confirmPayment hmacG "sec" ⟨[], [pendSale]⟩ reqBad).2 =
      Except.error ⟨"Invalid payment signature", 400⟩ ∧
    findSale (confirmPayment hmacG "sec" ⟨[], [pendSale]⟩ reqBad).1.sales "I2" =
      some { pendSale with paymentStatus := PaymentStatus.failed } ∧
    ({ pendSale with paymentStatus := PaymentStatus.failed } : Sale).paymentStatus ≠
      PaymentStatus.paid := by
  have h := C5_invalid_signature_marks_failed hmacG "sec" ⟨[], [pendSale]⟩ reqBad
    pendSale rfl rfl (by decide)
  exact ⟨h.1, h.2.1, h.2.2.2 [] (by simp) _ h.2.1⟩

/-- C10: confirmPayment does not bind the confirmation to the order it
settles: whenever the supplied (externalOrderId, externalPaymentId,
signature) triple passes verification, the pending order looked up by
invoiceId is marked Completed/Paid with the supplied payment id and
signature recorded on it — the theorem holds for an arbitrary supplied
externalOrderId, with no hypothesis relating it to the order's stored
razorpayOrderId, because the code performs no such equality check. -/
theorem C10_confirmation_not_bound_to_order (hmac : String → String → String)
    (secret : String) (db : DB) (req : ConfirmReq) (inv : Sale)
    (hfind : findSale db.sales req.invoiceId = some inv)
    (_hpend : inv.paymentStatus = PaymentStatus.pending)
    (hsig : verifyPaymentSignature hmac secret req.razorpay_order_id
      req.razorpay_payment_id req.razorpay_signature = true) :
    (confirmPayment hmac secret db req).2 = Except.ok
      { inv with
        paymentStatus := PaymentStatus.paid,
        razorpayPaymentId := some req.razorpay_payment_id,
        razorpaySignature := some req.razorpay_signature,
        status := OrderStatus.completed } ∧
    findSale (confirmPayment hmac secret db req).1.sales req.invoiceId = some
      { inv with
        paymentStatus := PaymentStatus.paid,
        razorpayPaymentId := some req.razorpay_payment_id,
        razorpaySignature := some req.razorpay_signature,
        status := OrderStatus.completed } := by
  have hid : inv.invoiceId = req.invoiceId := findSale_invoiceId hfind
  have hsome : (findSale db.sales req.invoiceId).isSome = true := by
    rw [hfind]; rfl
  constructor
  · simp only [confirmPayment, hfind, hsig, if_true]
  · simp only [confirmPayment, hfind, hsig, if_true]
    exact findSale_replaceSale_eq db.sales _ req.invoiceId hid hsome

/-- C10 witness: the stored pending order "I2" records gateway order id
"ORD_A", the confirmation supplies the different gateway order id "ORD_B",
and — because its signature verifies — the order is still settled with the
supplied payment id and signature recorded. -/
theorem C10_confirmation_not_bound_to_order_witness :
    pendSale.razorpayOrderId = some "ORD_A" ∧
    reqOtherOrder.razorpay_order_id = "ORD_B" ∧
    ("ORD_A" : String) ≠ "ORD_B" ∧
    (confirmPayment hmacG "sec" ⟨[], [pendSale]⟩ reqOtherOrder).2 = Except.ok
      { pendSale with
        paymentStatus := PaymentStatus.paid,
        razorpayPaymentId := some "PAY2",
        razorpaySignature := some "GOOD",
        status := OrderStatus.completed } := by
  refine ⟨rfl, rfl, by decide, ?_⟩
  exact (C10_confirmation_not_bound_to_order hmacG "sec" ⟨[], [pendSale]⟩
    reqOtherOrder pendSale rfl rfl (by decide)).1

/-- A successful save appends the new document to the collection. -/
theorem saveSale_eq_append {sales : List Sale} {s : Sale} {ss : List Sale}
    (h : saveSale sales s = some ss) : ss = sales ++ [s] := by
  unfold saveSale at h
  by_cases hd : hasInvoiceId sales s.invoiceId
  · simp [hd] at h
  · simp [hd] at h
    exact h.symm

/-- A successfully saved document is in the resulting collection. -/
theorem saveSale_mem {sales : List Sale} {s : Sale} {ss : List Sale}
    (h : saveSale sales s = some ss) : s ∈ ss := by
  rw [saveSale_eq_append h]
  exact List.mem_append_right _ (List.mem_singleton_self s)

/-- If the unique-index check reports the id absent, it is absent. -/
theorem hasInvoiceId_false_not_mem {sales : List Sale} {iid : String}
    (h : hasInvoiceId sales iid = false) : iid ∉ sales.map Sale.invoiceId := by
  intro hmem
  obtain ⟨s, hsmem, hsid⟩ := List.mem_map.1 hmem
  have hany : sales.any (fun s => s.invoiceId == iid) = true :=
    List.any_eq_true.2 ⟨s, hsmem, beq_iff_eq.2 hsid⟩
  unfold hasInvoiceId at h
  exact Bool.noConfusion (hany.symm.trans h)

/-- A successful save keeps the invoice ids of the collection free of
duplicates. -/
theorem saveSale_nodup {sales : List Sale} {s : Sale} {ss : List Sale}
    (hnd : (sales.map Sale.invoiceId).Nodup) (h : saveSale sales s = some ss) :
    (ss.map Sale.invoiceId).Nodup := by
  have hfalse : hasInvoiceId sales s.invoiceId = false := by
    unfold saveSale at h
    by_cases hd : hasInvoiceId sales s.invoiceId
    · simp [hd] at h
    · simpa using hd
  rw [saveSale_eq_append h, List.map_append, List.map_singleton]
  rw [List.nodup_append]
  refine ⟨hnd, List.nodup_singleton _, ?_⟩
  intro a ha hb
  rw [List.mem_singleton] at hb
  subst hb
  exact hasInvoiceId_false_not_mem hfalse ha

/-- POST /api/sales consults the gateway only through the value
`salesAmountPaise (sumTotals items)`: two gateways that agree on that one
amount produce identical checkouts. -/
theorem createSale_gw_agree (db : DB) (items : List SaleItem)
    (cname iid : String) (gw gw' : ℚ → Option String)
    (h : gw (salesAmountPaise (sumTotals items)) =
      gw' (salesAmountPaise (sumTotals items))) :
    createSale db items cname iid gw = createSale db items cname iid gw' := by
  unfold createSale
  rcases hsl : stockLoop db.products items with ⟨ps, e⟩
  cases e with
  | some err => rfl
  | none =>
    simp only
    rw [h]

/-- C6 counterexample: the claim asserts every checkout persists an order whose
totalAmount equals the sum of its line totals. POST /api/invoices persists
the client-supplied totalAmount unchecked: a cash checkout for one line whose
lineTotal is 10 but whose body claims totalAmount 5 persists an order with
totalAmount 5 ≠ 10. -/
theorem C6_totalAmount_counterexample :
    (createInvoice ⟨[prodA], []⟩ ⟨"c", [itemA1], 5, PaymentMethod.cash⟩
        "I1" gwFail).1.sales =
      [{ invoiceId := "I1", customerName := "c", items := [itemA1],
         totalAmount := 5, status := OrderStatus.completed,
         paymentStatus := PaymentStatus.paid,
         paymentMethod := PaymentMethod.cash }] ∧
    sumTotals [itemA1] = 10 ∧ (5 : ℚ) ≠ 10 := by
  refine ⟨rfl, ?_, by norm_num⟩
  norm_num [sumTotals, itemA1]

/-- C6 amended: POST /api/sales computes and persists totalAmount as the sum
of the line totals, and it stores the created order; POST /api/invoices
persists the request's totalAmount as supplied, which need not equal the sum
of the line totals, and stores the created order. -/
theorem C6_totalAmount_amended :
    (∀ (db : DB) (items : List SaleItem) (cname iid : String)
        (gw : ℚ → Option String) (db' : DB) (sale : Sale),
      createSale db items cname iid gw = (db', Except.ok sale) →
        sale.totalAmount = sumTotals items ∧ sale ∈ db'.sales) ∧
    (∀ (db : DB) (req : CheckoutReq) (iid : String) (gw : ℚ → Option String)
        (db' : DB) (resp : CheckoutResp),
      createInvoice db req iid gw = (db', Except.ok resp) →
        (respSale resp).totalAmount = req.totalAmount ∧ respSale resp ∈ db'.sales) := by
  constructor
  · intro db items cname iid gw db' sale h
    unfold createSale at h
    rcases hsl : stockLoop db.products items with ⟨ps, e⟩
    rw [hsl] at h
    cases e with
    | some err => simp at h
    | none =>
      simp only at h
      cases hgw : gw (salesAmountPaise (sumTotals items)) with
      | none => rw [hgw] at h; simp at h
      | some ext =>
        rw [hgw] at h
        simp only at h
        cases hsv : saveSale db.sales
          { invoiceId := iid, customerName := cname, items := items,
            totalAmount := sumTotals items, status := OrderStatus.pending,
            paymentStatus := PaymentStatus.pending,
            paymentMethod := PaymentMethod.upi,
            razorpayOrderId := some ext } with
        | none => rw [hsv] at h; simp at h
        | some ss =>
          rw [hsv] at h
          simp only [Prod.mk.injEq, Except.ok.injEq] at h
          obtain ⟨hdb, hsale⟩ := h
          subst hdb
          subst hsale
          exact ⟨rfl, saveSale_mem hsv⟩
  · intro db req iid gw db' resp h
    unfold createInvoice at h
    rcases hsl : stockLoop db.products req.items with ⟨ps, e⟩
    rw [hsl] at h
    cases e with
    | some err => simp at h
    | none =>
      simp only at h
      cases hm : req.paymentMethod with
      | cash =>
        rw [hm] at h
        simp only at h
        cases hsv : saveSale db.sales
          { invoiceId := iid, customerName := req.customerName,
            items := req.items, totalAmount := req.totalAmount,
            status := OrderStatus.completed,
            paymentStatus := PaymentStatus.paid,
            paymentMethod := PaymentMethod.cash } with
        | none => rw [hsv] at h; simp at h
        | some ss =>
          rw [hsv] at h
          simp only [Prod.mk.injEq, Except.ok.injEq] at h
          obtain ⟨hdb, hresp⟩ := h
          subst hdb
          subst hresp
          exact ⟨rfl, saveSale_mem hsv⟩
      | upi =>
        rw [hm] at h
        simp only at h
        cases hgw : gw ((invoicesAmountPaise req.totalAmount : ℤ) : ℚ) with
        | none => rw [hgw] at h; simp at h
        | some ext =>
          rw [hgw] at h
          simp only at h
          cases hsv : saveSale db.sales
            { invoiceId := iid, customerName := req.customerName,
              items := req.items, totalAmount := req.totalAmount,
              status := OrderStatus.pending,
              paymentStatus := PaymentStatus.pending,
              paymentMethod := PaymentMethod.upi,
              razorpayOrderId := some ext } with
          | none => rw [hsv] at h; simp at h
          | some ss =>
            rw [hsv] at h
            simp only [Prod.mk.injEq, Except.ok.injEq] at h
            obtain ⟨hdb, hresp⟩ := h
            subst hdb
            subst hresp
            exact ⟨rfl, saveSale_mem hsv⟩

/-- C6 witness: concrete runs of both routes — POST /api/sales stores an order
with totalAmount equal to the sum of its line totals, and a cash
POST /api/invoices stores the body's totalAmount 5. -/
theorem C6_totalAmount_amended_witness :
    (saleS1.totalAmount = sumTotals [itemA1] ∧ saleS1 ∈ ([saleS1] : List Sale)) ∧
    ((respSale (CheckoutResp.cashOk saleC1)).totalAmount = (5 : ℚ) ∧
      respSale (CheckoutResp.cashOk saleC1) ∈ ([saleC1] : List Sale)) := by
  constructor
  · exact C6_totalAmount_amended.1 ⟨[prodA], []⟩ [itemA1] "c" "S1" gwOk
      ⟨[prodA4], [saleS1]⟩ saleS1 rfl
  · exact C6_totalAmount_amended.2 ⟨[prodA], []⟩
      ⟨"c", [itemA1], 5, PaymentMethod.cash⟩ "C1" gwOk
      ⟨[prodA4], [saleC1]⟩ (CheckoutResp.cashOk saleC1) rfl

/-- C8 counterexample: the claim says a checkout assigned an already-used
invoice id is rejected with a Conflict error. With invoice id "X" already
stored, a cash checkout for one unit of the stocked product A — a request
that passes the route's validation — assigned "X" is indeed rejected
without overwriting the stored order, but the error surfaced is the
catch-all "Server error" with status 500 — not a Conflict (409)
classification. -/
theorem C8_duplicate_invoice_counterexample :
    (createInvoice ⟨[prodA], [saleX]⟩ ⟨"c", [itemA1], 10, PaymentMethod.cash⟩
        "X" gwFail).2 = Except.error ⟨"Server error", 500⟩ ∧
    (createInvoice ⟨[prodA], [saleX]⟩ ⟨"c", [itemA1], 10, PaymentMethod.cash⟩
        "X" gwFail).1.sales = [saleX] ∧
    (500 : ℕ) ≠ 409 := by
  exact ⟨rfl, rfl, by decide⟩

/-- C8 amended: a checkout assigned an already-stored invoice id (and whose
stock loop succeeds) is rejected — the unique-index violation on save is
surfaced as the generic 500 "Server error", not as a Conflict — and the
stored orders are left untouched, so the first order is never overwritten;
moreover any checkout preserves global uniqueness of stored invoice ids. -/
theorem C8_duplicate_invoice_amended :
    (∀ (db : DB) (req : CheckoutReq) (iid : String) (gw : ℚ → Option String),
      hasInvoiceId db.sales iid = true →
      (stockLoop db.products req.items).2 = none →
      (createInvoice db req iid gw).2 = Except.error ⟨"Server error", 500⟩ ∧
      (createInvoice db req iid gw).1.sales = db.sales) ∧
    (∀ (db : DB) (req : CheckoutReq) (iid : String) (gw : ℚ → Option String),
      (db.sales.map Sale.invoiceId).Nodup →
      ((createInvoice db req iid gw).1.sales.map Sale.invoiceId).Nodup) := by
  constructor
  · intro db req iid gw hdup hstock
    rcases hsl : stockLoop db.products req.items with ⟨ps, e⟩
    rw [hsl] at hstock
    simp only at hstock
    subst hstock
    have key : createInvoice db req iid gw =
        ({ db with products := ps }, Except.error ⟨"Server error", 500⟩) := by
      unfold createInvoice
      rw [hsl]
      simp only
      cases req.paymentMethod with
      | cash =>
        rw [show saveSale db.sales
          { invoiceId := iid, customerName := req.customerName,
            items := req.items, totalAmount := req.totalAmount,
            status := OrderStatus.completed,
            paymentStatus := PaymentStatus.paid,
            paymentMethod := PaymentMethod.cash } = none from by
          simp [saveSale, hdup]]
      | upi =>
        cases hgw : gw ((invoicesAmountPaise req.totalAmount : ℤ) : ℚ) with
        | none => rfl
        | some ext =>
          simp only
          rw [show saveSale db.sales
            { invoiceId := iid, customerName := req.customerName,
              items := req.items, totalAmount := req.totalAmount,
              status := OrderStatus.pending,
              paymentStatus := PaymentStatus.pending,
              paymentMethod := PaymentMethod.upi,
              razorpayOrderId := some ext } = none from by
            simp [saveSale, hdup]]
    rw [key]
    exact ⟨rfl, rfl⟩
  · intro db req iid gw hnd
    unfold createInvoice
    rcases hsl : stockLoop db.products req.items with ⟨ps, e⟩
    cases e with
    | some err => exact hnd
    | none =>
      simp only
      cases req.paymentMethod with
      | cash =>
        cases hsv : saveSale db.sales
          { invoiceId := iid, customerName := req.customerName,
            items := req.items, totalAmount := req.totalAmount,
            status := OrderStatus.completed,
            paymentStatus := PaymentStatus.paid,
            paymentMethod := PaymentMethod.cash } with
        | none => exact hnd
        | some ss => exact saveSale_nodup hnd hsv
      | upi =>
        cases hgw : gw ((invoicesAmountPaise req.totalAmount : ℤ) : ℚ) with
        | none => exact hnd
        | some ext =>
          simp only
          cases hsv : saveSale db.sales
            { invoiceId := iid, customerName := req.customerName,
              items := req.items, totalAmount := req.totalAmount,
              status := OrderStatus.pending,
              paymentStatus := PaymentStatus.pending,
              paymentMethod := PaymentMethod.upi,
              razorpayOrderId := some ext } with
          | none => exact hnd
          | some ss => exact saveSale_nodup hnd hsv

/-- C8 witness: with order "X" stored, a validation-passing cash checkout for
one unit of the stocked product A assigned "X" errors with the generic 500
"Server error" and leaves the stored orders untouched; and the same checkout
assigned the fresh id "X2" preserves uniqueness of the stored invoice ids. -/
theorem C8_duplicate_invoice_amended_witness :
    ((createInvoice ⟨[prodA], [saleX]⟩ ⟨"c", [itemA1], 10, PaymentMethod.cash⟩
        "X" gwFail).2 = Except.error ⟨"Server error", 500⟩ ∧
     (createInvoice ⟨[prodA], [saleX]⟩ ⟨"c", [itemA1], 10, PaymentMethod.cash⟩
        "X" gwFail).1.sales = [saleX]) ∧
    ((createInvoice ⟨[prodA], [saleX]⟩ ⟨"c", [itemA1], 10, PaymentMethod.cash⟩
        "X2" gwFail).1.sales.map Sale.invoiceId).Nodup := by
  constructor
  · exact C8_duplicate_invoice_amended.1 ⟨[prodA], [saleX]⟩
      ⟨"c", [itemA1], 10, PaymentMethod.cash⟩ "X" gwFail (by decide) rfl
  · exact C8_duplicate_invoice_amended.2 ⟨[prodA], [saleX]⟩
      ⟨"c", [itemA1], 10, PaymentMethod.cash⟩ "X2" gwFail (by simp)

/-- C9 counterexample: the claim says every electronic checkout sends the
gateway `max(round(totalAmount*100), 100)`. POST /api/sales sends
`totalAmount * 100` unrounded and unclamped: for a cart totalling 1/2, the
sales route's amount is 50 while the claimed formula gives 100 — shown by
the checkout succeeding under a gateway that only accepts 50 and failing
under one that only accepts 100. -/
theorem C9_gateway_amount_counterexample :
    salesAmountPaise (sumTotals [itemHalf]) = 50 ∧
    invoicesAmountPaise (sumTotals [itemHalf]) = 100 ∧
    (50 : ℚ) ≠ ((100 : ℤ) : ℚ) ∧
    (createSale ⟨[prodA], []⟩ [itemHalf] "c" "S1" gwOnly50).2 =
      Except.ok saleHalf ∧
    (createSale ⟨[prodA], []⟩ [itemHalf] "c" "S1" gwOnly100).2 =
      Except.error ⟨"Server error", 500⟩ := by
  have hsum : sumTotals [itemHalf] = 1/2 := by norm_num [sumTotals, itemHalf]
  have h50 : salesAmountPaise (sumTotals [itemHalf]) = 50 := by
    rw [hsum]
    norm_num [salesAmountPaise]
  have hfl : jsRound ((1 : ℚ)/2 * 100) = 50 := by
    rw [jsRound_eq_floor, Int.floor_eq_iff]
    norm_num
  have h100 : invoicesAmountPaise (sumTotals [itemHalf]) = 100 := by
    rw [hsum]
    simp only [invoicesAmountPaise]
    rw [hfl]
    exact max_eq_right (by norm_num)
  refine ⟨h50, h100, by norm_num, ?_, ?_⟩
  · have hagree : createSale ⟨[prodA], []⟩ [itemHalf] "c" "S1" gwOnly50 =
        createSale ⟨[prodA], []⟩ [itemHalf] "c" "S1" gwOk := by
      refine createSale_gw_agree _ _ _ _ _ _ ?_
      rw [h50]
      simp [gwOnly50, gwOk]
    rw [hagree]
    rfl
  · have hagree : createSale ⟨[prodA], []⟩ [itemHalf] "c" "S1" gwOnly100 =
        createSale ⟨[prodA], []⟩ [itemHalf] "c" "S1" gwFail := by
      refine createSale_gw_agree _ _ _ _ _ _ ?_
      rw [h50]
      simp [gwOnly100, gwFail]
    rw [hagree]
    rfl

/-- C9 amended: the invoices route sends the gateway exactly
`max(round(totalAmount*100), 100)` — an amount never below the 100-paise
minimum — while the sales route consults the gateway only through the
unrounded, unclamped amount `totalAmount * 100` with
`totalAmount = Σ lineTotal`. -/
theorem C9_gateway_amount_amended :
    (∀ (db : DB) (req : CheckoutReq) (iid : String) (gw : ℚ → Option String)
        (db' : DB) (sale : Sale) (amt : ℤ) (ext : String),
      createInvoice db req iid gw =
          (db', Except.ok (CheckoutResp.upiOk sale amt ext)) →
        amt = invoicesAmountPaise req.totalAmount ∧
        amt = max (jsRound (req.totalAmount * 100)) 100 ∧ (100 : ℤ) ≤ amt) ∧
    (∀ (db : DB) (items : List SaleItem) (cname iid : String)
        (gw gw' : ℚ → Option String),
      gw (salesAmountPaise (sumTotals items)) =
        gw' (salesAmountPaise (sumTotals items)) →
      createSale db items cname iid gw = createSale db items cname iid gw') := by
  constructor
  · intro db req iid gw db' sale amt ext h
    unfold createInvoice at h
    rcases hsl : stockLoop db.products req.items with ⟨ps, e⟩
    rw [hsl] at h
    cases e with
    | some err => simp at h
    | none =>
      simp only at h
      cases hm : req.paymentMethod with
      | cash =>
        rw [hm] at h
        simp only at h
        cases hsv : saveSale db.sales
          { invoiceId := iid, customerName := req.customerName,
            items := req.items, totalAmount := req.totalAmount,
            status := OrderStatus.completed,
            paymentStatus := PaymentStatus.paid,
            paymentMethod := PaymentMethod.cash } with
        | none => rw [hsv] at h; simp at h
        | some ss => rw [hsv] at h; simp at h
      | upi =>
        rw [hm] at h
        simp only at h
        cases hgw : gw ((invoicesAmountPaise req.totalAmount : ℤ) : ℚ) with
        | none => rw [hgw] at h; simp at h
        | some ext2 =>
          rw [hgw] at h
          simp only at h
          cases hsv : saveSale db.sales
            { invoiceId := iid, customerName := req.customerName,
              items := req.items, totalAmount := req.totalAmount,
              status := OrderStatus.pending,
              paymentStatus := PaymentStatus.pending,
              paymentMethod := PaymentMethod.upi,
              razorpayOrderId := some ext2 } with
          | none => rw [hsv] at h; simp at h
          | some ss =>
            rw [hsv] at h
            simp only [Prod.mk.injEq, Except.ok.injEq,
              CheckoutResp.upiOk.injEq] at h
            obtain ⟨hdb, hsale, hamt, hext⟩ := h
            subst hamt
            exact ⟨rfl, rfl, le_max_right _ _⟩
  · exact createSale_gw_agree

/-- C9 witness: a UPI invoice checkout for body totalAmount 1/2 records the
clamped amount `invoicesAmountPaise (1/2)` (which satisfies the 100-paise
minimum), and the sales route behaves identically under two gateways that
agree at the one amount it sends. -/
theorem C9_gateway_amount_amended_witness :
    (invoicesAmountPaise (1/2) = invoicesAmountPaise ((1:ℚ)/2) ∧
     invoicesAmountPaise (1/2) = max (jsRound ((1:ℚ)/2 * 100)) 100 ∧
     (100 : ℤ) ≤ invoicesAmountPaise (1/2)) ∧
    createSale ⟨[prodA], []⟩ [itemHalf] "c" "S1" gwOk =
      createSale ⟨[prodA], []⟩ [itemHalf] "c" "S1" gwOnly50 := by
  constructor
  · exact C9_gateway_amount_amended.1 ⟨[prodA], []⟩
      ⟨"c", [itemHalf], 1/2, PaymentMethod.upi⟩ "U1" gwOk
      ⟨[prodA4], [saleU1]⟩ saleU1 (invoicesAmountPaise (1/2)) "EXT" rfl
  · refine C9_gateway_amount_amended.2 ⟨[prodA], []⟩ [itemHalf] "c" "S1"
      gwOk gwOnly50 ?_
    rw [show salesAmountPaise (sumTotals [itemHalf]) = 50 from by
      norm_num [salesAmountPaise, sumTotals, itemHalf]]
    simp [gwOk, gwOnly50]

end Medicare
